import Mathlib

/-!
Shallow embedding of the `automaton_mk2` repository (files `automaton.py` and
`automaton_scheduler.py`) for checking the natural-language specification.

The embedding models:
* the local-timezone timestamp handling: a timestamp is a proleptic Gregorian
  ordinal day (1 = 0001-01-01, matching Python's `date.toordinal`) together
  with an hour and minute in the reference timezone;
* `get_best_timestamp`, `is_time_in_window` and the classification part of
  `process_video` from `automaton.py`;
* `create_event_title`, the event registry entries, `cmd_match_videos`'s
  per-video matching step and `cmd_classify`'s title derivation and status
  update from `automaton_scheduler.py`.

External collaborators (the Vimeo API client, JSON persistence, printing)
are out of scope per the spec; fallible external calls are not modelled and
the rename/move side effects are represented only by the computed outputs
(category, canonical title, status transitions).
-/

namespace Automaton

/-- A local-timezone timestamp: proleptic Gregorian ordinal day
(1 = 0001-01-01, as in Python `date.toordinal`) plus clock hour and minute. -/
structure LocalDT where
  ordinal : Nat
  hour : Nat
  minute : Nat
deriving DecidableEq, Repr

/-- Python `date.weekday()`: Monday = 0 .. Sunday = 6.
Ordinal 1 (0001-01-01) is a Monday. -/
def weekday (ord : Nat) : Nat := (ord + 6) % 7

/-- Convert a proleptic Gregorian ordinal to (year, month, day)
(civil-from-days algorithm, valid for ordinals of year 1 onward). -/
def ordinalToYMD (n : Nat) : Nat × Nat × Nat :=
  let z := n + 305
  let era := z / 146097
  let doe := z % 146097
  let yoe := (doe - doe / 1460 + doe / 36524 - doe / 146096) / 365
  let y0 := yoe + era * 400
  let doy := doe - (365 * yoe + yoe / 4 - yoe / 100)
  let mp := (5 * doy + 2) / 153
  let d := doy - (153 * mp + 2) / 5 + 1
  let m := if mp < 10 then mp + 3 else mp - 9
  (if m ≤ 2 then y0 + 1 else y0, m, d)

def digitChar (n : Nat) : Char := Char.ofNat (48 + n)

def pad2 (n : Nat) : String :=
  String.mk [digitChar (n / 10 % 10), digitChar (n % 10)]

def pad4 (n : Nat) : String :=
  String.mk [digitChar (n / 1000 % 10), digitChar (n / 100 % 10),
             digitChar (n / 10 % 10), digitChar (n % 10)]

/-- `service_date.strftime("%Y-%m-%d")`. -/
def formatDate (ord : Nat) : String :=
  let ymd := ordinalToYMD ord
  pad4 ymd.1 ++ "-" ++ pad2 ymd.2.1 ++ "-" ++ pad2 ymd.2.2

/-- Does `needle` occur as a contiguous sublist of the second argument? -/
def infixHit (needle : List Char) : List Char → Bool
  | [] => needle.isEmpty
  | c :: rest => needle.isPrefixOf (c :: rest) || infixHit needle rest

/-- Python substring test `needle in hay`. -/
def containsSub (needle hay : String) : Bool :=
  infixHit needle.toList hay.toList

/-- `re.sub(r"^\d{4}-\d{2}-\d{2} - ", "", title)`: strip one leading
`YYYY-MM-DD - ` prefix when present. -/
def stripDatePrefix (s : String) : String :=
  match s.toList with
  | y1 :: y2 :: y3 :: y4 :: h1 :: m1 :: m2 :: h2 :: d1 :: d2 :: sp1 :: da :: sp2 :: rest =>
    if y1.isDigit && y2.isDigit && y3.isDigit && y4.isDigit && h1 == '-'
       && m1.isDigit && m2.isDigit && h2 == '-' && d1.isDigit && d2.isDigit
       && sp1 == ' ' && da == '-' && sp2 == ' '
    then String.mk rest else s
  | _ => s

/-- Python `str.lower()` (character-wise, which agrees with Python on the
ASCII titles this system handles). -/
def lowerString (s : String) : String := String.mk (s.toList.map Char.toLower)

/-- `video_title_lower` in `process_video`: prefix-stripped, lowercased title. -/
def titleLower (title : String) : String := lowerString (stripDatePrefix title)

def minutesOfDay (t : LocalDT) : Nat := t.hour * 60 + t.minute

/-- `is_time_in_window` from `automaton.py` (inclusive on both bounds). -/
def is_time_in_window (t : LocalDT) (s e : Nat × Nat) : Bool :=
  decide (s.1 * 60 + s.2 ≤ minutesOfDay t ∧ minutesOfDay t ≤ e.1 * 60 + e.2)

/-- `SATURDAY_SERVICE_WINDOW` config (name, (start, end)); the unused
`service_date: 0` offset field of the source dict is omitted. -/
def SATURDAY_SERVICE_WINDOW : List (String × ((Nat × Nat) × (Nat × Nat))) :=
  [("Traditional 5:30 PM", ((18, 15), (21, 0)))]

/-- `SUNDAY_SERVICE_WINDOWS` config, in the source's insertion order. -/
def SUNDAY_SERVICE_WINDOWS : List (String × ((Nat × Nat) × (Nat × Nat))) :=
  [("9:30 AM", ((10, 15), (11, 0))),
   ("11:00 AM", ((11, 45), (13, 30)))]

def ROOT_CLASS_WINDOW_MONDAY : (Nat × Nat) × (Nat × Nat) := ((19, 0), (21, 0))

def ROOT_CLASS_WINDOW_SUNDAY : (Nat × Nat) × (Nat × Nat) := ((10, 15), (11, 0))

/-- The Root Class keyword test (first branch of step 5 in `process_video`). -/
def rootKeywordHit (lower : String) : Bool :=
  containsSub "capture - piro hall" lower || containsSub "the root class" lower
    || containsSub "root" lower

/-- The worship-service keyword test (second branch of step 5). -/
def worshipKeywordHit (lower : String) : Bool :=
  containsSub "worship" lower || containsSub "contemporary" lower
    || containsSub "traditional" lower

/-- The keyword test guarding the midnight-rollover adjustment
(`"worship" in video_title_lower or "traditional" in video_title_lower`). -/
def lateNightKeywordHit (lower : String) : Bool :=
  containsSub "worship" lower || containsSub "traditional" lower

/-- Step 3 of `process_video`: if the timestamp is Sunday before 06:00 and the
title carries worship/traditional keywords, shift the reference time back one
calendar day (same clock time). -/
def adjustForRollover (t : LocalDT) (lower : String) : LocalDT :=
  if weekday t.ordinal = 6 ∧ t.hour < 6 ∧ lateNightKeywordHit lower = true
  then { t with ordinal := t.ordinal - 1 }
  else t

/-- Python's `break`-terminated loop over a window dict: the first window
containing the reference time. -/
def saturdayWindowFind (t : LocalDT) : Option (String × ((Nat × Nat) × (Nat × Nat))) :=
  SATURDAY_SERVICE_WINDOW.find? (fun w => is_time_in_window t w.2.1 w.2.2)

def sundayWindowFind (t : LocalDT) : Option (String × ((Nat × Nat) × (Nat × Nat))) :=
  SUNDAY_SERVICE_WINDOWS.find? (fun w => is_time_in_window t w.2.1 w.2.2)

/-- Step 5 of `process_video` (classification branches), evaluated at the
already-rollover-adjusted reference time `refT`.  Returns the pair
(`category_folder_name`, `final_title_suffix`), both `none` when no rule
matched. -/
def classifyAt (lower origTitle : String) (refT : LocalDT) : Option String × Option String :=
  let dow := weekday refT.ordinal
  if rootKeywordHit lower = true then
    if dow = 0 then
      if is_time_in_window refT ROOT_CLASS_WINDOW_MONDAY.1 ROOT_CLASS_WINDOW_MONDAY.2 = true
      then (some "The Root Class", some "The Root Class")
      else (none, none)
    else if dow = 6 then
      if is_time_in_window refT ROOT_CLASS_WINDOW_SUNDAY.1 ROOT_CLASS_WINDOW_SUNDAY.2 = true
      then (some "The Root Class", some "0930 - The Root Class")
      else (none, none)
    else (none, none)
  else if worshipKeywordHit lower = true then
    let serviceType := if containsSub "contemporary" lower = true then "Contemporary" else "Traditional"
    if dow = 5 then
      match saturdayWindowFind refT with
      | some w => (some "Worship Services", some ("Worship Service - " ++ w.1))
      | none => (none, none)
    else if dow = 6 then
      match sundayWindowFind refT with
      | some w =>
          (some "Worship Services",
           some ("Worship Service - " ++ serviceType ++ " " ++ w.1))
      | none => (some "Weddings and Memorials", some "Memorial or Wedding Service")
    else (some "Weddings and Memorials", some "Memorial or Wedding Service")
  else if containsSub "memorial" lower = true ∨ containsSub "wedding" lower = true then
    (some "Weddings and Memorials", some "Memorial or Wedding Service")
  else if containsSub "scott" lower = true ∨
          (containsSub "class" lower = true ∧ containsSub "root" lower = false) then
    (some "Scott\x27s Classes", some origTitle)
  else (none, none)

/-- Outcome of the classification part of `process_video`: the category folder
name, the title suffix, and the service date (as an ordinal) used to build the
proposed title. -/
structure ClassifyResult where
  category : Option String
  suffix : Option String
  serviceOrdinal : Nat
deriving DecidableEq, Repr

/-- The classification core of `process_video` (`automaton.py` steps 1-5):
pure function of the current title, the resolved reference time, and the
duration (which the source extracts but never uses in any branch). -/
def classify (currentTitle : String) (referenceTime : LocalDT) (durationSeconds : Nat) :
    ClassifyResult :=
  let lower := titleLower currentTitle
  let _durationMinutes := durationSeconds / 60
  let refT := adjustForRollover referenceTime lower
  let cs := classifyAt lower (stripDatePrefix currentTitle) refT
  { category := cs.1, suffix := cs.2, serviceOrdinal := refT.ordinal }

/-- Step 6 of `process_video`: the proposed title
`f"{correct_date_str} - {final_title_suffix}"`, produced only when both the
category and the suffix were determined. -/
def newTitle (r : ClassifyResult) : Option String :=
  match r.category, r.suffix with
  | some _, some sfx => some (formatDate r.serviceOrdinal ++ " - " ++ sfx)
  | _, _ => none

/-- A video record as consumed by the engine: the fields of the Vimeo API
payload that the classification pipeline reads.  Timestamps are modelled
already parsed into the reference timezone; an absent field is `none`. -/
structure VideoRecord where
  name : String
  release_time : Option LocalDT
  modified_time : Option LocalDT
  created_time : Option LocalDT
  duration : Nat
  is_playable : Bool
deriving DecidableEq, Repr

inductive TimeSource where
  | release
  | modified
  | created
deriving DecidableEq, Repr

/-- `get_best_timestamp` from `automaton.py`: priority
`release_time` > `modified_time` > `created_time`.  The source wraps only the
`release_time` parse in try/except; an absent `created_time` at the end is an
uncaught `KeyError` in Python, modelled here as `none` (all timestamps are
pre-parsed, so the parse-failure branch of the try/except cannot fire). -/
def get_best_timestamp (v : VideoRecord) : Option (LocalDT × TimeSource) :=
  match v.release_time with
  | some t => some (t, TimeSource.release)
  | none =>
    match v.modified_time with
    | some t => some (t, TimeSource.modified)
    | none =>
      match v.created_time with
      | some t => some (t, TimeSource.created)
      | none => none

/-- The classification part of `process_video` applied to a whole record:
resolve the timestamp, then classify.  A record with no timestamp at all makes
the Python code raise an uncaught `KeyError`, modelled as `Except.error`. -/
def process_video (v : VideoRecord) : Except String (ClassifyResult × TimeSource) :=
  match get_best_timestamp v with
  | none => Except.error "KeyError: created_time"
  | some (t, src) => Except.ok (classify v.name t v.duration, src)

/-- The per-video loop of `main` in `automaton.py` (lines 510-571), restricted
to the classification-relevant checks: unplayable videos are skipped with
`continue`; `process_video` is called with no exception handler, so a raised
exception aborts the remaining batch.  (The parent-folder exclusion rules
concern the external folder layout and are not modelled.) -/
def run_batch : List VideoRecord → Except String (List (ClassifyResult × TimeSource))
  | [] => Except.ok []
  | v :: vs =>
    if v.is_playable = false then run_batch vs
    else
      match process_video v with
      | Except.error e => Except.error e
      | Except.ok r =>
        match run_batch vs with
        | Except.error e => Except.error e
        | Except.ok rs => Except.ok (r :: rs)

/-! ## Scheduler (`automaton_scheduler.py`) -/

/-- `TEST_EVENT_TYPES`: event type name → `folder_destination` (the
description and duration fields play no role in the modelled logic). -/
def TEST_EVENT_TYPES : List (String × String) :=
  [("Test Service A", "Worship Services"),
   ("Test Service B", "Worship Services"),
   ("Test Class Alpha", "Scott\x27s Classes"),
   ("Test Class Beta", "The Root Class"),
   ("Test Special Event", "Weddings and Memorials")]

def folderDestination (ty : String) : Option String :=
  (TEST_EVENT_TYPES.find? (fun p => p.1 == ty)).map (fun p => p.2)

/-- `str.replace(":", "")`. -/
def removeColons (s : String) : String :=
  String.mk (s.toList.filter (fun c => c != ':'))

/-- `create_event_title`: `f"{scheduled_date} - {time_formatted} - {event_type}"`
with the colon removed from the time. -/
def create_event_title (event_type scheduled_date scheduled_time : String) : String :=
  scheduled_date ++ " - " ++ removeColons scheduled_time ++ " - " ++ event_type

/-- A registry entry of `schedule_tracker.json` (the fields the matching and
classification logic reads; `uri`, `created_at` and the embedded metadata blob
are not consulted by any modelled branch). -/
structure ScheduledEvent where
  id : String
  event_type : String
  title : String
  scheduled_date : String
  scheduled_time : String
  folder_destination : String
  status : String
  archived_video_id : Option String
  classification_complete : Bool
deriving DecidableEq, Repr

/-- The registry entry appended by `cmd_create_event` on success
(`status = "scheduled"`, no linked video); `none` when the event type is not
in `TEST_EVENT_TYPES` (the command exits with an error). -/
def createEventEntry (event_id ty d tm : String) : Option ScheduledEvent :=
  match folderDestination ty with
  | none => none
  | some folder =>
    some { id := event_id, event_type := ty,
           title := create_event_title ty d tm,
           scheduled_date := d, scheduled_time := tm,
           folder_destination := folder, status := "scheduled",
           archived_video_id := none, classification_complete := false }

/-- The registry entry appended by `cmd_register_event` on success
(`status = "registered"`; for manually registered events the linked video id
equals the event id); `none` when the event type is unknown. -/
def registerEventEntry (event_id ty d tm : String) : Option ScheduledEvent :=
  match folderDestination ty with
  | none => none
  | some folder =>
    some { id := event_id, event_type := ty,
           title := create_event_title ty d tm,
           scheduled_date := d, scheduled_time := tm,
           folder_destination := folder, status := "registered",
           archived_video_id := some event_id, classification_complete := false }

/-- The classification triple embedded in a video description by
`create_classification_metadata` and parsed back by `cmd_match_videos`. -/
structure MetaPayload where
  event_type : String
  scheduled_date : String
  scheduled_time : String
deriving DecidableEq, Repr

/-- The state of a video description as seen by `cmd_match_videos`:
a parseable `AUTOMATON_METADATA:` payload, a marker whose JSON fails to parse
(warning printed, video skipped), or no marker at all (title fallback). -/
inductive DescMeta where
  | payload (p : MetaPayload)
  | badPayload
  | noMarker
deriving DecidableEq, Repr

/-- A video as consumed by `cmd_match_videos`: its id (last URI segment),
its name, and its description's metadata state. -/
structure MatchVideo where
  id : String
  name : String
  meta : DescMeta
deriving DecidableEq, Repr

/-- The metadata-match condition of `cmd_match_videos` (exact equality of the
(date, time, type) triple). -/
def matchByMetadata (pl : MetaPayload) (e : ScheduledEvent) : Bool :=
  e.scheduled_date == pl.scheduled_date && e.scheduled_time == pl.scheduled_time
    && e.event_type == pl.event_type

/-- The title-fallback condition of `cmd_match_videos`:
`event.get("title") and event["title"] in video_name`. -/
def titleHit (e : ScheduledEvent) (v : MatchVideo) : Bool :=
  e.title != "" && containsSub e.title v.name

/-- Linking an event to a video in `cmd_match_videos`:
`event["archived_video_id"] = video_id; event["status"] = "archived"`. -/
def linkEvent (videoId : String) (e : ScheduledEvent) : ScheduledEvent :=
  { e with archived_video_id := some videoId, status := "archived" }

/-- Apply `f` to the first list element satisfying `p` (Python's
`for ... if ...: mutate; break` pattern). -/
def updateFirst {α : Type} (p : α → Bool) (f : α → α) : List α → List α
  | [] => []
  | x :: xs => if p x then f x :: xs else x :: updateFirst p f xs

/-- One iteration of `cmd_match_videos`'s loop: process one video against the
event list.  The metadata path links the first triple-matching event
unconditionally; the title path links the first title-containing event only
when it has no linked video yet (and in either case stops at that event). -/
def matchOneVideo (v : MatchVideo) (events : List ScheduledEvent) : List ScheduledEvent :=
  match v.meta with
  | DescMeta.payload pl => updateFirst (fun e => matchByMetadata pl e) (linkEvent v.id) events
  | DescMeta.badPayload => events
  | DescMeta.noMarker =>
    updateFirst (fun e => titleHit e v)
      (fun e => if e.archived_video_id.isNone then linkEvent v.id e else e) events

/-- The event-lookup condition of `cmd_classify`:
`event.get("archived_video_id") == args.video_id or event.get("id") == args.video_id`. -/
def classifyMatches (videoId : String) (e : ScheduledEvent) : Bool :=
  e.archived_video_id == some videoId || e.id == videoId

/-- `cmd_classify`'s registry lookup (first matching event). -/
def findEventForVideo (videoId : String) (events : List ScheduledEvent) :
    Option ScheduledEvent :=
  events.find? (classifyMatches videoId)

/-- `cmd_classify`'s derived title:
`f"{date} - {time} - {event_type}"` with the colon removed from the time. -/
def deriveCorrectTitle (e : ScheduledEvent) : String :=
  e.scheduled_date ++ " - " ++ removeColons e.scheduled_time ++ " - " ++ e.event_type

/-- The registry update of `cmd_classify --apply` after a successful move:
the matched event gets `classification_complete = True` and
`status = "classified"`. -/
def cmd_classify_apply (videoId : String) (events : List ScheduledEvent) :
    List ScheduledEvent :=
  updateFirst (classifyMatches videoId)
    (fun e => { e with classification_complete := true, status := "classified" }) events

/-! ## Concrete instances used by the witness and counterexample theorems -/

/-- A video record carrying only a `created_time`. -/
def vrecCreatedOnly : VideoRecord :=
  { name := "Chapel Event", release_time := none, modified_time := none,
    created_time := some ⟨739228, 10, 40⟩, duration := 0, is_playable := true }

/-- A playable record with no timestamp at all. -/
def noTsRecord : VideoRecord :=
  { name := "Mystery Clip", release_time := none, modified_time := none,
    created_time := none, duration := 0, is_playable := true }

/-- A well-formed record (2024-12-08 was a Sunday; ordinal 739228). -/
def okRecord : VideoRecord :=
  { name := "Sunday Worship", release_time := none,
    modified_time := some ⟨739228, 10, 40⟩, created_time := none,
    duration := 3600, is_playable := true }

/-- A registry entry already linked to video "A", in status `archived`. -/
def evLinkedA : ScheduledEvent :=
  { id := "E1", event_type := "Test Service A",
    title := "2024-12-07 - 0930 - Test Service A",
    scheduled_date := "2024-12-07", scheduled_time := "09:30",
    folder_destination := "Worship Services", status := "archived",
    archived_video_id := some "A", classification_complete := false }

/-- A different video ("B") whose embedded payload carries the same
(type, date, time) triple as `evLinkedA`. -/
def vidBMeta : MatchVideo :=
  { id := "B", name := "untitled",
    meta := DescMeta.payload ⟨"Test Service A", "2024-12-07", "09:30"⟩ }

/-- A different video ("B") with no payload whose name contains
`evLinkedA`'s title. -/
def vidBTitle : MatchVideo :=
  { id := "B", name := "2024-12-07 - 0930 - Test Service A (live)",
    meta := DescMeta.noMarker }

/-- A registry entry already in terminal status `classified`, linked to "A". -/
def evClassified : ScheduledEvent :=
  { id := "E2", event_type := "Test Service A",
    title := "2024-12-07 - 0930 - Test Service A",
    scheduled_date := "2024-12-07", scheduled_time := "09:30",
    folder_destination := "Worship Services", status := "classified",
    archived_video_id := some "A", classification_complete := true }

/-- The same video "A" presenting the matching payload again. -/
def vidRematch : MatchVideo :=
  { id := "A", name := "untitled",
    meta := DescMeta.payload ⟨"Test Service A", "2024-12-07", "09:30"⟩ }

/-- The registry entry produced by registering event id "123". -/
def regEvent123 : ScheduledEvent :=
  { id := "123", event_type := "Test Service A",
    title := "2024-12-07 - 0930 - Test Service A",
    scheduled_date := "2024-12-07", scheduled_time := "09:30",
    folder_destination := "Worship Services", status := "registered",
    archived_video_id := some "123", classification_complete := false }

/-- An archived registry entry linked to video "V9". -/
def evLinked9 : ScheduledEvent :=
  { id := "E3", event_type := "Test Service B",
    title := "2024-12-14 - 1100 - Test Service B",
    scheduled_date := "2024-12-14", scheduled_time := "11:00",
    folder_destination := "Worship Services", status := "archived",
    archived_video_id := some "V9", classification_complete := false }

/-- Video "V9" again, with its embedded payload. -/
def vidSameMeta : MatchVideo :=
  { id := "V9", name := "untitled",
    meta := DescMeta.payload ⟨"Test Service B", "2024-12-14", "11:00"⟩ }

/-- Video "V9" again, matched by title containment. -/
def vidSameTitle : MatchVideo :=
  { id := "V9", name := "2024-12-14 - 1100 - Test Service B",
    meta := DescMeta.noMarker }

/-! ## Helper lemmas -/

/-- Unfolding lemma for `classify`. -/
theorem classify_eq (title : String) (t : LocalDT) (d : Nat) :
    classify title t d =
      { category := (classifyAt (titleLower title) (stripDatePrefix title)
          (adjustForRollover t (titleLower title))).1,
        suffix := (classifyAt (titleLower title) (stripDatePrefix title)
          (adjustForRollover t (titleLower title))).2,
        serviceOrdinal := (adjustForRollover t (titleLower title)).ordinal } := rfl

/-- The rollover adjustment is the identity unless the timestamp is a Sunday
before 06:00. -/
theorem adjustForRollover_id (t : LocalDT) (lower : String)
    (h : ¬ (weekday t.ordinal = 6 ∧ t.hour < 6)) :
    adjustForRollover t lower = t := by
  unfold adjustForRollover
  rw [if_neg]
  intro hc
  exact h ⟨hc.1, hc.2.1⟩

/-- `updateFirst` on a list whose prefix has no hit rewrites exactly the first
hit. -/
theorem updateFirst_append {α : Type} (p : α → Bool) (f : α → α)
    (pre post : List α) (e : α)
    (hpre : ∀ x ∈ pre, p x = false) (he : p e = true) :
    updateFirst p f (pre ++ e :: post) = pre ++ f e :: post := by
  induction pre with
  | nil => simp [updateFirst, he]
  | cons a as ih =>
    have ha : p a = false := hpre a (List.mem_cons_self a as)
    simp only [List.cons_append, updateFirst, ha, Bool.false_eq_true, if_false,
      List.append_eq]
    rw [ih (fun x hx => hpre x (List.mem_cons_of_mem a hx))]

/-- Linking an event to the video it is already linked to (in status
`archived`) does not change the entry. -/
theorem linkEvent_self (e : ScheduledEvent) (vid : String)
    (h1 : e.archived_video_id = some vid) (h2 : e.status = "archived") :
    linkEvent vid e = e := by
  cases e
  simp only [linkEvent]
  simp only at h1 h2
  rw [h1, h2]

/-! ## Claim theorems -/

/-- Claim C10: the classification decision is independent of the duration
input — two invocations identical in title and resolved timestamp but
differing in `durationSeconds` produce the same outcome (category, suffix and
service date), since the source extracts the duration but never reads it in
any classification branch. -/
theorem C10_duration_independent (title : String) (t : LocalDT) (d1 d2 : Nat) :
    classify title t d1 = classify title t d2 := rfl

/-- Claim C7: `get_best_timestamp` selects the classification timestamp by the
fixed priority `release_time` > `modified_time` > `created_time` and reports
the source field; in particular a record with `modified_time` absent,
`created_time` present and no `release_time` yields the created time with
source `created`. -/
theorem C7_timestamp_priority (v : VideoRecord) :
    (∀ t, v.release_time = some t →
      get_best_timestamp v = some (t, TimeSource.release)) ∧
    (v.release_time = none → ∀ t, v.modified_time = some t →
      get_best_timestamp v = some (t, TimeSource.modified)) ∧
    (v.release_time = none → v.modified_time = none →
      ∀ t, v.created_time = some t →
      get_best_timestamp v = some (t, TimeSource.created)) := by
  refine ⟨?_, ?_, ?_⟩ <;> intros <;> simp_all [get_best_timestamp]

/-- Witness for C7 at a record with only a `created_time`. -/
theorem C7_witness :
    get_best_timestamp vrecCreatedOnly = some (⟨739228, 10, 40⟩, TimeSource.created) :=
  (C7_timestamp_priority vrecCreatedOnly).2.2 rfl rfl ⟨739228, 10, 40⟩ rfl

/-- Claim C8: for a registered event looked up by its linked video id,
`cmd_classify`'s derived title (the `{date} - {time} - {eventType}` template
with the colon removed) is string-equal to the title stored at registration by
`create_event_title`, independent of the heuristic classifier. -/
theorem C8_resolve_consistent (es : List ScheduledEvent) (vid ty dt tm : String)
    (e : ScheduledEvent)
    (hreg : registerEventEntry vid ty dt tm = some e)
    (hfind : findEventForVideo vid es = some e) :
    deriveCorrectTitle e = e.title := by
  unfold registerEventEntry at hreg
  cases hfd : folderDestination ty <;> rw [hfd] at hreg
  · cases hreg
  · injection hreg with h
    subst h
    rfl

/-- Witness for C8: a concrete registered event in a one-entry registry. -/
theorem C8_witness : deriveCorrectTitle regEvent123 = regEvent123.title :=
  C8_resolve_consistent [regEvent123] "123" "Test Service A" "2024-12-07" "09:30"
    regEvent123 (by decide) (by decide)

/-- Claim C6: a resolved timestamp on a Sunday strictly before 06:00 whose
title carries a late-running-category keyword ("worship" or "traditional") is
reinterpreted as the previous calendar day at the same clock time: the service
date is one ordinal day earlier, that day is a Saturday, and the whole
classification coincides with classifying the shifted timestamp (i.e. under
Saturday's rules). -/
theorem C6_midnight_rollover (title : String) (t : LocalDT) (d : Nat)
    (hdow : weekday t.ordinal = 6) (hh : t.hour < 6)
    (hkw : lateNightKeywordHit (titleLower title) = true)
    (hpos : 1 ≤ t.ordinal) :
    (classify title t d).serviceOrdinal = t.ordinal - 1 ∧
    weekday (t.ordinal - 1) = 5 ∧
    classify title t d = classify title ⟨t.ordinal - 1, t.hour, t.minute⟩ d := by
  have hadj : adjustForRollover t (titleLower title) = ⟨t.ordinal - 1, t.hour, t.minute⟩ := by
    unfold adjustForRollover
    rw [if_pos ⟨hdow, hh, hkw⟩]
  have hw5 : weekday (t.ordinal - 1) = 5 := by
    unfold weekday at hdow ⊢
    omega
  have hadj2 : adjustForRollover ⟨t.ordinal - 1, t.hour, t.minute⟩ (titleLower title) =
      ⟨t.ordinal - 1, t.hour, t.minute⟩ := by
    apply adjustForRollover_id
    intro hc
    have h6 : weekday (t.ordinal - 1) = 6 := hc.1
    rw [hw5] at h6
    omega
  refine ⟨?_, hw5, ?_⟩
  · rw [classify_eq, hadj]
  · rw [classify_eq, classify_eq, hadj, hadj2]

/-- Witness for C6: title "Traditional Worship" at Sunday 2024-12-08, 00:45
(ordinal 739228) is classified exactly as at Saturday 2024-12-07, 00:45, with
the service date shifted back one day. -/
theorem C6_witness :
    weekday 739228 = 6 ∧
    (classify "Traditional Worship" ⟨739228, 0, 45⟩ 0).serviceOrdinal = 739228 - 1 ∧
    weekday (739228 - 1) = 5 ∧
    classify "Traditional Worship" ⟨739228, 0, 45⟩ 0 =
      classify "Traditional Worship" ⟨739228 - 1, 0, 45⟩ 0 :=
  ⟨by decide, C6_midnight_rollover "Traditional Worship" ⟨739228, 0, 45⟩ 0
    (by decide) (by decide) (by decide) (by decide)⟩

/-- Counterexample for C2 as stated: "Worship Night" on a Saturday
(2024-12-07, ordinal 739227) at 12:00 is keyword-positive and window-negative,
yet classification yields no category at all (Unclassified) instead of routing
to the catch-all "Weddings and Memorials"; likewise a Root-Class-keyword title
on a Tuesday (ordinal 739230) yields no category. -/
theorem C2_counterexample :
    worshipKeywordHit (titleLower "Worship Night") = true ∧
    weekday 739227 = 5 ∧
    saturdayWindowFind ⟨739227, 12, 0⟩ = none ∧
    (classify "Worship Night" ⟨739227, 12, 0⟩ 0).category = none ∧
    rootKeywordHit (titleLower "The Root Class") = true ∧
    (classify "The Root Class" ⟨739230, 12, 0⟩ 0).category = none := by
  refine ⟨by decide, by decide, by decide, by decide, by decide, by decide⟩

/-- Claim C2 (amended): the catch-all fallback exists only inside the
worship-keyword branch — on a Sunday with no Sunday window matching, and on
any day other than Saturday and Sunday.  A worship-keyword title on Saturday
outside the Saturday window, and a Root-Class-keyword title outside the Root
Class windows (or on a non-Root-Class day), are left unclassified. -/
theorem C2_amended_fallback_scope (title : String) (t : LocalDT) (d : Nat)
    (hno : ¬ (weekday t.ordinal = 6 ∧ t.hour < 6)) :
    (rootKeywordHit (titleLower title) = false →
     worshipKeywordHit (titleLower title) = true →
      ((weekday t.ordinal ≠ 5 → weekday t.ordinal ≠ 6 →
        (classify title t d).category = some "Weddings and Memorials") ∧
       (weekday t.ordinal = 6 → sundayWindowFind t = none →
        (classify title t d).category = some "Weddings and Memorials") ∧
       (weekday t.ordinal = 5 → saturdayWindowFind t = none →
        (classify title t d).category = none))) ∧
    (rootKeywordHit (titleLower title) = true →
      ((weekday t.ordinal = 0 →
        is_time_in_window t ROOT_CLASS_WINDOW_MONDAY.1 ROOT_CLASS_WINDOW_MONDAY.2 = false →
        (classify title t d).category = none) ∧
       (weekday t.ordinal = 6 →
        is_time_in_window t ROOT_CLASS_WINDOW_SUNDAY.1 ROOT_CLASS_WINDOW_SUNDAY.2 = false →
        (classify title t d).category = none) ∧
       (weekday t.ordinal ≠ 0 → weekday t.ordinal ≠ 6 →
        (classify title t d).category = none))) := by
  have hadj : adjustForRollover t (titleLower title) = t := adjustForRollover_id t _ hno
  simp only [classify_eq, hadj]
  constructor
  · intro hroot hwor
    refine ⟨?_, ?_, ?_⟩
    · intro h5 h6
      simp [classifyAt, hroot, hwor, h5, h6]
    · intro h6 hfind
      simp [classifyAt, hroot, hwor, h6, hfind]
    · intro h5 hfind
      simp [classifyAt, hroot, hwor, h5, hfind]
  · intro hroot
    refine ⟨?_, ?_, ?_⟩ <;> intro h1 h2 <;> simp [classifyAt, hroot, h1, h2]

/-- Witness for C2 (amended): the Saturday and Tuesday unclassified cases and
the Tuesday worship fallback, at concrete dates. -/
theorem C2_witness :
    (classify "Worship Night" ⟨739227, 12, 0⟩ 0).category = none ∧
    (classify "The Root Class" ⟨739230, 12, 0⟩ 0).category = none ∧
    (classify "Worship Celebration" ⟨739230, 12, 0⟩ 0).category =
      some "Weddings and Memorials" := by
  refine ⟨?_, ?_, ?_⟩
  · exact ((C2_amended_fallback_scope "Worship Night" ⟨739227, 12, 0⟩ 0
      (by decide)).1 (by decide) (by decide)).2.2 (by decide) (by decide)
  · exact ((C2_amended_fallback_scope "The Root Class" ⟨739230, 12, 0⟩ 0
      (by decide)).2 (by decide)).2.2 (by decide) (by decide)
  · exact ((C2_amended_fallback_scope "Worship Celebration" ⟨739230, 12, 0⟩ 0
      (by decide)).1 (by decide) (by decide)).1 (by decide) (by decide)

/-- Counterexample for C4 as stated: "Sunday Worship" at Sunday 2024-12-08
10:40 produces canonical title
"2024-12-08 - Worship Service - Traditional 9:30 AM" — the suffix embeds the
service type "Traditional", so it is not the claimed
"{service_date} - Worship Service - 9:30 AM". -/
theorem C4_counterexample :
    newTitle (classify "Sunday Worship" ⟨739228, 10, 40⟩ 0) =
      some "2024-12-08 - Worship Service - Traditional 9:30 AM" ∧
    newTitle (classify "Sunday Worship" ⟨739228, 10, 40⟩ 0) ≠
      some "2024-12-08 - Worship Service - 9:30 AM" := by
  refine ⟨by decide, by decide⟩

set_option maxRecDepth 4000 in
/-- Claim C4 (amended): "Sunday Worship" with a resolved timestamp on any
Sunday at 10:40 (inside the 10:15-11:00 window) is classified as category
"Worship Services" and the canonical title is exactly
`{service_date} - Worship Service - Traditional 9:30 AM` (the service type
defaults to Traditional because "contemporary" is absent from the title). -/
theorem C4_amended_sunday_0930 (ord : Nat) (h : weekday ord = 6) :
    (classify "Sunday Worship" ⟨ord, 10, 40⟩ 0).category = some "Worship Services" ∧
    newTitle (classify "Sunday Worship" ⟨ord, 10, 40⟩ 0) =
      some (formatDate ord ++ " - " ++ "Worship Service - Traditional 9:30 AM") := by
  have hadj : adjustForRollover ⟨ord, 10, 40⟩ (titleLower "Sunday Worship") =
      ⟨ord, 10, 40⟩ := by
    apply adjustForRollover_id
    intro hc
    have h10 : (10 : Nat) < 6 := hc.2
    omega
  have hroot : rootKeywordHit (titleLower "Sunday Worship") = false := by decide
  have hwor : worshipKeywordHit (titleLower "Sunday Worship") = true := by decide
  have hcon : containsSub "contemporary" (titleLower "Sunday Worship") = false := by decide
  have hfind : sundayWindowFind ⟨ord, 10, 40⟩ = some ("9:30 AM", ((10, 15), (11, 0))) := rfl
  have hcs : classifyAt (titleLower "Sunday Worship")
      (stripDatePrefix "Sunday Worship") ⟨ord, 10, 40⟩ =
      (some "Worship Services", some "Worship Service - Traditional 9:30 AM") := by
    simp [classifyAt, hroot, hwor, hcon, h, hfind]
  have hclassify : classify "Sunday Worship" ⟨ord, 10, 40⟩ 0 =
      { category := some "Worship Services",
        suffix := some "Worship Service - Traditional 9:30 AM",
        serviceOrdinal := ord } := by
    rw [classify_eq, hadj, hcs]
  exact ⟨by rw [hclassify], by rw [hclassify]; rfl⟩

/-- Witness for C4 (amended) at the Sunday 2024-12-08 (ordinal 739228). -/
theorem C4_witness :
    weekday 739228 = 6 ∧
    newTitle (classify "Sunday Worship" ⟨739228, 10, 40⟩ 0) =
      some (formatDate 739228 ++ " - " ++ "Worship Service - Traditional 9:30 AM") :=
  ⟨by decide, (C4_amended_sunday_0930 739228 (by decide)).2⟩

/-- Counterexample for C3 as stated: a playable record with no timestamp at
all aborts the whole batch (the raised `KeyError` is uncaught in `main`'s
loop), so the following `okRecord` is never processed — even though on its own
it would classify fine.  The record is not "skipped with processing of the
remaining videos continuing". -/
theorem C3_counterexample :
    run_batch [noTsRecord, okRecord] = Except.error "KeyError: created_time" ∧
    run_batch [okRecord] =
      Except.ok [(classify "Sunday Worship" ⟨739228, 10, 40⟩ 3600, TimeSource.modified)] := by
  refine ⟨rfl, rfl⟩

/-- Claim C3 (amended): a record with none of `release_time`,
`modified_time`, `created_time` makes `get_best_timestamp` fail with an
uncaught `KeyError` (there is no `NoTimestampAvailable` error value), and
since the batch loop has no exception handler the failure aborts processing of
all remaining videos in the batch. -/
theorem C3_amended_batch_abort (v : VideoRecord) (vs : List VideoRecord)
    (hp : v.is_playable = true)
    (h1 : v.release_time = none) (h2 : v.modified_time = none)
    (h3 : v.created_time = none) :
    get_best_timestamp v = none ∧
    run_batch (v :: vs) = Except.error "KeyError: created_time" := by
  have hbest : get_best_timestamp v = none := by
    simp [get_best_timestamp, h1, h2, h3]
  refine ⟨hbest, ?_⟩
  simp [run_batch, process_video, hbest, hp]

/-- Witness for C3 (amended) at the concrete no-timestamp record followed by
a well-formed record. -/
theorem C3_witness :
    get_best_timestamp noTsRecord = none ∧
    run_batch [noTsRecord, okRecord] = Except.error "KeyError: created_time" :=
  C3_amended_batch_abort noTsRecord [okRecord] rfl rfl rfl rfl

/-- Counterexample for C1 as stated: `evLinkedA` is linked to video "A" in
status `archived`; matching video "B" (whose payload carries the same
(type, date, time) triple) silently overwrites the link to "B" — the registry
entry changes and no conflict is reported (the code has no `MatchConflict`). -/
theorem C1_counterexample :
    evLinkedA.archived_video_id = some "A" ∧
    evLinkedA.status = "archived" ∧
    (matchOneVideo vidBMeta [evLinkedA]).map (fun e => e.archived_video_id) =
      [some "B"] := by
  refine ⟨rfl, rfl, rfl⟩

/-- Claim C1 (amended): when an event already linked to video A matches a
different video B, the metadata-match path of `cmd_match_videos` silently
overwrites the link (`archived_video_id` becomes B and `status` is set to
`archived`), while the title-containment path leaves the already-linked entry
unchanged; in neither path is any conflict reported. -/
theorem C1_amended_silent_overwrite (e : ScheduledEvent) (a : String)
    (vm vt : MatchVideo) (pl : MetaPayload)
    (ha : e.archived_video_id = some a)
    (hm : vm.meta = DescMeta.payload pl) (hmatch : matchByMetadata pl e = true)
    (ht : vt.meta = DescMeta.noMarker) (hhit : titleHit e vt = true) :
    matchOneVideo vm [e] =
      [{ e with archived_video_id := some vm.id, status := "archived" }] ∧
    matchOneVideo vt [e] = [e] := by
  constructor
  · simp [matchOneVideo, hm, updateFirst, hmatch, linkEvent]
  · simp [matchOneVideo, ht, updateFirst, hhit, ha]

/-- Witness for C1 (amended): the concrete already-linked event against the
two concrete videos "B". -/
theorem C1_witness :
    matchOneVideo vidBMeta [evLinkedA] =
      [{ evLinkedA with archived_video_id := some "B", status := "archived" }] ∧
    matchOneVideo vidBTitle [evLinkedA] = [evLinkedA] :=
  C1_amended_silent_overwrite evLinkedA "A" vidBMeta vidBTitle
    ⟨"Test Service A", "2024-12-07", "09:30"⟩ rfl rfl (by decide) rfl (by decide)

/-- Counterexample for C5 as stated: `classified` is not terminal — re-running
the matching routine on a classified event whose linked video presents its
payload again moves the status backward to `archived`. -/
theorem C5_counterexample :
    evClassified.status = "classified" ∧
    (matchOneVideo vidRematch [evClassified]).map (fun e => e.status) =
      ["archived"] := by
  refine ⟨rfl, rfl⟩

/-- Claim C5 (amended): the operations set the statuses of the intended
forward chain — creation yields `scheduled`, registration yields `registered`,
a metadata match yields `archived`, a successful classification yields
`classified` — but matching does not guard on the current status: the
metadata-match path sets the first triple-matching event to `archived`
whatever its status was, so a `classified` event can move backward and
`classified` is not terminal. -/
theorem C5_amended_status_transitions (e : ScheduledEvent) (v : MatchVideo)
    (pl : MetaPayload) (vid i ty dt tm : String) :
    (v.meta = DescMeta.payload pl → matchByMetadata pl e = true →
      (matchOneVideo v [e]).map (fun x => x.status) = ["archived"]) ∧
    (classifyMatches vid e = true →
      (cmd_classify_apply vid [e]).map (fun x => x.status) = ["classified"]) ∧
    (∀ e2, registerEventEntry i ty dt tm = some e2 → e2.status = "registered") ∧
    (∀ e2, createEventEntry i ty dt tm = some e2 → e2.status = "scheduled") := by
  refine ⟨?_, ?_, ?_, ?_⟩
  · intro hm hmm
    simp [matchOneVideo, hm, updateFirst, hmm, linkEvent]
  · intro hc
    simp [cmd_classify_apply, updateFirst, hc]
  · intro e2 h
    unfold registerEventEntry at h
    cases hf : folderDestination ty <;> rw [hf] at h
    · cases h
    · injection h with h
      subst h
      rfl
  · intro e2 h
    unfold createEventEntry at h
    cases hf : folderDestination ty <;> rw [hf] at h
    · cases h
    · injection h with h
      subst h
      rfl

/-- Witness for C5 (amended): concrete instances for all four conjuncts. -/
theorem C5_witness :
    (matchOneVideo vidRematch [evClassified]).map (fun x => x.status) = ["archived"] ∧
    (cmd_classify_apply "A" [evLinkedA]).map (fun x => x.status) = ["classified"] ∧
    regEvent123.status = "registered" := by
  refine ⟨?_, ?_, ?_⟩
  · exact (C5_amended_status_transitions evClassified vidRematch
      ⟨"Test Service A", "2024-12-07", "09:30"⟩ "A" "123" "Test Service A"
      "2024-12-07" "09:30").1 rfl (by decide)
  · exact (C5_amended_status_transitions evLinkedA vidRematch
      ⟨"Test Service A", "2024-12-07", "09:30"⟩ "A" "123" "Test Service A"
      "2024-12-07" "09:30").2.1 (by decide)
  · exact (C5_amended_status_transitions evLinkedA vidRematch
      ⟨"Test Service A", "2024-12-07", "09:30"⟩ "A" "123" "Test Service A"
      "2024-12-07" "09:30").2.2.1 regEvent123 (by decide)

/-- Claim C9: matching is idempotent with respect to the same video — if an
event earlier in the registry does not match, and the first matching event is
already in status `archived` and linked to this very video, re-running the
per-video matching step (via the embedded payload or via title containment)
leaves the registry unchanged. -/
theorem C9_match_idempotent (pre post : List ScheduledEvent) (e : ScheduledEvent)
    (v : MatchVideo) (pl : MetaPayload)
    (harch : e.status = "archived") (hlink : e.archived_video_id = some v.id) :
    (v.meta = DescMeta.payload pl →
     (∀ x ∈ pre, matchByMetadata pl x = false) → matchByMetadata pl e = true →
     matchOneVideo v (pre ++ e :: post) = pre ++ e :: post) ∧
    (v.meta = DescMeta.noMarker →
     (∀ x ∈ pre, titleHit x v = false) → titleHit e v = true →
     matchOneVideo v (pre ++ e :: post) = pre ++ e :: post) := by
  constructor
  · intro hm hpre hme
    simp only [matchOneVideo, hm]
    rw [updateFirst_append _ _ _ _ _ hpre hme]
    rw [linkEvent_self e v.id hlink harch]
  · intro hm hpre hme
    simp only [matchOneVideo, hm]
    rw [updateFirst_append _ _ _ _ _ hpre hme]
    rw [hlink]
    simp

/-- Witness for C9: re-matching the archived event `evLinked9` with its own
video "V9", by payload and by title. -/
theorem C9_witness :
    matchOneVideo vidSameMeta [evLinked9] = [evLinked9] ∧
    matchOneVideo vidSameTitle [evLinked9] = [evLinked9] :=
  ⟨(C9_match_idempotent [] [] evLinked9 vidSameMeta
      ⟨"Test Service B", "2024-12-14", "11:00"⟩ rfl rfl).1
      rfl (fun x hx => absurd hx (List.not_mem_nil x)) (by decide),
   (C9_match_idempotent [] [] evLinked9 vidSameTitle
      ⟨"Test Service B", "2024-12-14", "11:00"⟩ rfl rfl).2
      rfl (fun x hx => absurd hx (List.not_mem_nil x)) (by decide)⟩

end Automaton
